import Mathlib

/-!
Shallow embedding of `src/ExceptionHandlerDecorator.py`.

The repository consists of a single class `ExceptionHandler` whose method
`exception_handler_decorator(exceptions, return_message, log_file)` produces a
decorator; applying the decorator to a callable yields `wrapper`, which calls
the callable, and on an exception matched by the `exceptions` tuple opens
`log_file` for writing (mode "w", truncating), writes the traceback into it and
returns `return_message`; an unmatched exception propagates.  The module also
contains a demonstration `example` building a three-guard chain around a
divide-reduce function `div_array`.

Modelling choices:
  * Python values occurring in the demonstration are `Val` (rationals, strings,
    lists); a call either returns a value or raises an exception (`PyResult`).
  * An exception carries its class and message; the Python class hierarchy
    fragment that matters is embedded in `isSubclass` (every class is a
    subclass of `Exception`).  The `except exceptions:` clause of the source
    matches by instance test, i.e. by subclass, which `excMatches` embeds.
  * The file system is a finite map from paths to contents plus a set of paths
    on which opening for writing fails (permissions, invalid path); `open(p,
    "w")` followed by a full write and close is `writeFile`, which truncates.
  * A callable is state-passing over the file system, so the wrapper's write
    effects and frame conditions are visible in the theorems.
-/

set_option autoImplicit false

namespace ExceptionHandlerDecorator

/-- Python exception classes relevant to the repository: the ones raised or
configured in the source, `OSError` for failures of `open`, and `ValueError`
as a class unrelated to any guard of the demonstration. -/
inductive ExcClass
  | zeroDivisionError
  | typeError
  | arithmeticError
  | osError
  | valueError
  | exceptionCls
deriving DecidableEq, Repr

/-- Python name of an exception class, as it appears in a traceback. -/
def className : ExcClass → String
  | .zeroDivisionError => "ZeroDivisionError"
  | .typeError => "TypeError"
  | .arithmeticError => "ArithmeticError"
  | .osError => "OSError"
  | .valueError => "ValueError"
  | .exceptionCls => "Exception"

/-- The subclass relation on the embedded fragment of Python's exception
hierarchy: every class is a subclass of itself and of `Exception`, and
`ZeroDivisionError` is in addition a subclass of `ArithmeticError`. -/
def isSubclass (a b : ExcClass) : Bool :=
  a == b || b == .exceptionCls ||
    (a == .zeroDivisionError && b == .arithmeticError)

/-- A raised Python exception: its class and message. -/
structure Exc where
  cls : ExcClass
  msg : String
deriving DecidableEq, Repr

/-- The text `traceback.print_exc` records for an exception: a trace header
followed by the exception's type name and message. -/
def traceOf (e : Exc) : String :=
  "Traceback (most recent call last):\n" ++ className e.cls ++ ": " ++ e.msg

/-- File-system state: the files (path, content) and the set of paths on which
opening for writing fails. -/
structure FS where
  files : List (String × String)
  badPaths : List String
deriving DecidableEq, Repr

/-- Whether `open(p, "w")` succeeds in state `fs`. -/
def canOpen (fs : FS) (p : String) : Bool :=
  !(fs.badPaths.contains p)

/-- Overwrite file `p` with content `c` (the effect of `open(p, "w")` plus a
full write: any prior content of `p` is discarded). -/
def setFile (fs : FS) (p c : String) : FS :=
  { fs with files := (p, c) :: fs.files.filter (fun kv => kv.1 != p) }

/-- Content of file `p`, when it exists. -/
def readFile (fs : FS) (p : String) : Option String :=
  fs.files.lookup p

/-- The `OSError` raised when `open(p, "w")` fails. -/
def openError (p : String) : Exc :=
  ⟨.osError, "could not open " ++ p ++ " for writing"⟩

/-- The scoped `with open(log_file, "w") as f: traceback.print_exc(file=f)`
block: fails with `OSError` on a bad path, and otherwise truncates the file
to exactly the written content. -/
def writeFile (fs : FS) (p c : String) : Except Exc FS :=
  if fs.badPaths.contains p then .error (openError p)
  else .ok (setFile fs p c)

/-- A Python value of the demonstration: a number, a string, or a list. -/
inductive Val
  | num (q : ℚ)
  | str (s : String)
  | listV (xs : List Val)
deriving Repr

/-- Outcome of a Python call: a returned value or a raised exception. -/
inductive PyResult (α : Type)
  | ok (v : α)
  | exc (e : Exc)
deriving Repr

/-- A Python callable with one argument, state-passing over the file system. -/
abbrev Callable := Val → FS → PyResult Val × FS

/-- The matching test of `except exceptions:`: the raised exception is an
instance of some class of the tuple, i.e. its class is a subclass of one. -/
def excMatches (exceptions : List ExcClass) (e : Exc) : Bool :=
  exceptions.any (fun c => isSubclass e.cls c)

/-- The `wrapper` closure of the source (lines 32-39): call `func`; pass a
normal return through; on an exception matched by `exceptions`, write the
traceback to `log_file` (truncating) and return `return_message`; on an
unmatched exception, or on a failure of the diagnostic write itself,
propagate. -/
def wrapper (exceptions : List ExcClass) (return_message log_file : String)
    (func : Callable) : Callable := fun args fs =>
  match func args fs with
  | (.ok v, fs1) => (.ok v, fs1)
  | (.exc e, fs1) =>
    if excMatches exceptions e then
      match writeFile fs1 log_file (traceOf e) with
      | .ok fs2 => (.ok (.str return_message), fs2)
      | .error e2 => (.exc e2, fs1)
    else
      (.exc e, fs1)

/-- The `ExceptionHandler` class: stored default `return_message` and
`log_file` (lines 6-9 of the source). -/
structure ExceptionHandler where
  return_message : String
  log_file : String

/-- The `exception_handler_decorator` method (lines 11-43): resolve `None`
arguments to the stored defaults, then return the decorator producing
`wrapper`. -/
def ExceptionHandler.exception_handler_decorator (self : ExceptionHandler)
    (exceptions : List ExcClass)
    (return_message : Option String) (log_file : Option String) :
    Callable → Callable :=
  let lf : String :=
    match log_file with
    | none => self.log_file
    | some s => s
  let rm : String :=
    match return_message with
    | none => self.return_message
    | some s => s
  fun func => wrapper exceptions rm lf func

/-- Python division `x / y` on the demonstration's values: number by nonzero
number divides, division by zero raises `ZeroDivisionError`, and any other
operand combination raises `TypeError`. -/
def pydiv : Val → Val → PyResult Val
  | .num x, .num y =>
    if y = 0 then .exc ⟨.zeroDivisionError, "division by zero"⟩
    else .ok (.num (x / y))
  | _, _ => .exc ⟨.typeError, "unsupported operand type(s) for /"⟩

/-- `reduce` folding `pydiv` over the remaining elements, propagating the
first raised exception. -/
def reduceDivGo : Val → List Val → PyResult Val
  | acc, [] => .ok acc
  | acc, y :: ys =>
    match pydiv acc y with
    | .ok v => reduceDivGo v ys
    | .exc e => .exc e

/-- `functools.reduce(lambda x, y: x / y, xs)`: `TypeError` on an empty
iterable, otherwise a left fold of division starting at the first element. -/
def reduceDiv : List Val → PyResult Val
  | [] => .exc ⟨.typeError, "reduce() of empty iterable with no initial value"⟩
  | x :: xs => reduceDivGo x xs

/-- Iterability of a value: lists iterate their elements, strings their
characters; a number is not iterable. -/
def toIter : Val → Option (List Val)
  | .listV xs => some xs
  | .str s => some (s.toList.map (fun c => .str c.toString))
  | .num _ => none

/-- The demonstration's `div_array` (lines 66-73): `reduce` division over the
argument; a non-iterable argument makes `reduce` raise `TypeError`. -/
def div_array : Callable := fun arg fs =>
  match toIter arg with
  | none => (.exc ⟨.typeError, "reduce() arg 2 must support iteration"⟩, fs)
  | some xs => (reduceDiv xs, fs)

/-- The factory instance of `example` (lines 47-50). -/
def exc_handler : ExceptionHandler :=
  ⟨"Unexpected error, seek help.", "default_error_log.txt"⟩

/-- The `TypeError` guard's message of `example` (line 58). -/
def typeErrorMessage : String :=
  "Type Error ocurred! Please check the data types and try again."

/-- The `ZeroDivisionError` guard's message of `example` (line 63). -/
def zeroDivMessage : String := "Division by 0 is impossible!"

/-- The three-guard chain of `example` (lines 55-73): `ZeroDivisionError`
innermost, then `TypeError`, then `Exception` outermost with the factory's
defaults. -/
def div_array_guarded : Callable :=
  exc_handler.exception_handler_decorator [.exceptionCls] none none
    (exc_handler.exception_handler_decorator [.typeError]
      (some typeErrorMessage) (some "typeerror.txt")
      (exc_handler.exception_handler_decorator [.zeroDivisionError]
        (some zeroDivMessage) (some "zerodivisionerror.txt")
        div_array))

/-- An empty file system on which every open succeeds. -/
def fs0 : FS := ⟨[], []⟩

/-- A file system on which the `ZeroDivisionError` guard's log cannot be
opened. -/
def fsBad : FS := ⟨[], ["zerodivisionerror.txt"]⟩

/-- A callable raising `ValueError`, unrelated to the demonstration guards. -/
def raiseValueError : Callable := fun _ fs => (.exc ⟨.valueError, "bad value"⟩, fs)

/-- A callable raising `TypeError`. -/
def raiseTypeError : Callable := fun _ fs => (.exc ⟨.typeError, "boom"⟩, fs)

/-! Helper lemmas about the embedded operations. -/

theorem isSubclass_refl (a : ExcClass) : isSubclass a a = true := by
  simp [isSubclass]

theorem excMatches_of_mem {excs : List ExcClass} {e : Exc} (h : e.cls ∈ excs) :
    excMatches excs e = true := by
  simp only [excMatches, List.any_eq_true]
  exact ⟨e.cls, h, isSubclass_refl e.cls⟩

theorem writeFile_of_canOpen {fs : FS} {p : String} (h : canOpen fs p = true)
    (c : String) : writeFile fs p c = .ok (setFile fs p c) := by
  have hb : p ∉ fs.badPaths := by simpa [canOpen] using h
  simp [writeFile, hb]

theorem writeFile_of_bad {fs : FS} {p : String} (h : canOpen fs p = false)
    (c : String) : writeFile fs p c = .error (openError p) := by
  have hb : p ∈ fs.badPaths := by simpa [canOpen] using h
  simp [writeFile, hb]

theorem canOpen_setFile (fs : FS) (p c q : String) :
    canOpen (setFile fs p c) q = canOpen fs q := rfl

theorem readFile_setFile (fs : FS) (p c : String) :
    readFile (setFile fs p c) p = some c := by
  simp [readFile, setFile, List.lookup]

theorem wrapper_ok {excs : List ExcClass} {rm lf : String} {func : Callable}
    {args : Val} {fs fs1 : FS} {v : Val}
    (h : func args fs = (.ok v, fs1)) :
    wrapper excs rm lf func args fs = (.ok v, fs1) := by
  simp [wrapper, h]

theorem wrapper_handled {excs : List ExcClass} {rm lf : String} {func : Callable}
    {args : Val} {fs fs1 : FS} {e : Exc}
    (hraise : func args fs = (.exc e, fs1))
    (hmatch : excMatches excs e = true)
    (hopen : canOpen fs1 lf = true) :
    wrapper excs rm lf func args fs = (.ok (.str rm), setFile fs1 lf (traceOf e)) := by
  simp [wrapper, hraise, hmatch, writeFile_of_canOpen hopen]

theorem wrapper_unmatched {excs : List ExcClass} {rm lf : String} {func : Callable}
    {args : Val} {fs fs1 : FS} {e : Exc}
    (hraise : func args fs = (.exc e, fs1))
    (hmatch : excMatches excs e = false) :
    wrapper excs rm lf func args fs = (.exc e, fs1) := by
  simp [wrapper, hraise, hmatch]

theorem wrapper_writefail {excs : List ExcClass} {rm lf : String} {func : Callable}
    {args : Val} {fs fs1 : FS} {e : Exc}
    (hraise : func args fs = (.exc e, fs1))
    (hmatch : excMatches excs e = true)
    (hbad : canOpen fs1 lf = false) :
    wrapper excs rm lf func args fs = (.exc (openError lf), fs1) := by
  simp [wrapper, hraise, hmatch, writeFile_of_bad hbad]

theorem div_array_guarded_eq :
    div_array_guarded
      = wrapper [.exceptionCls] "Unexpected error, seek help." "default_error_log.txt"
          (wrapper [.typeError] typeErrorMessage "typeerror.txt"
            (wrapper [.zeroDivisionError] zeroDivMessage "zerodivisionerror.txt"
              div_array)) := rfl

/-! Claim theorems. -/

/-- C1: when the wrapped callable raises an exception whose class is a member
of the guard's configured tuple, the guard overwrites the diagnostic file so
that its content is exactly the exception trace and returns the fallback
message as the call's result; the original exception is suppressed. -/
theorem matched_category_handled
    (excs : List ExcClass) (rm lf : String) (func : Callable)
    (args : Val) (fs fs1 : FS) (e : Exc)
    (hraise : func args fs = (.exc e, fs1))
    (hmem : e.cls ∈ excs)
    (hopen : canOpen fs1 lf = true) :
    wrapper excs rm lf func args fs = (.ok (.str rm), setFile fs1 lf (traceOf e))
    ∧ readFile (setFile fs1 lf (traceOf e)) lf = some (traceOf e) :=
  ⟨wrapper_handled hraise (excMatches_of_mem hmem) hopen,
    readFile_setFile fs1 lf (traceOf e)⟩

/-- Witness for C1: the `ZeroDivisionError` guard of the demonstration at the
zero-division input. -/
theorem matched_category_handled_witness :
    wrapper [ExcClass.zeroDivisionError] zeroDivMessage "zerodivisionerror.txt"
        div_array (.listV [.num 10, .num 0]) fs0
      = (.ok (.str zeroDivMessage),
          setFile fs0 "zerodivisionerror.txt"
            (traceOf ⟨.zeroDivisionError, "division by zero"⟩))
    ∧ readFile (setFile fs0 "zerodivisionerror.txt"
          (traceOf ⟨.zeroDivisionError, "division by zero"⟩)) "zerodivisionerror.txt"
      = some (traceOf ⟨.zeroDivisionError, "division by zero"⟩) :=
  matched_category_handled [ExcClass.zeroDivisionError] zeroDivMessage
    "zerodivisionerror.txt" div_array (.listV [.num 10, .num 0]) fs0 fs0
    ⟨.zeroDivisionError, "division by zero"⟩ rfl (by decide) (by decide)

/-- C2 counterexample: a guard configured with the single class `Exception`
catches a raised `TypeError` — Python's except clause matches subclasses —
even though `TypeError` is not a member of the configured set: the exception
is converted to the fallback instead of propagating unchanged. -/
theorem nonmember_superclass_caught :
    ExcClass.typeError ∉ [ExcClass.exceptionCls]
    ∧ raiseTypeError (.num 0) fs0 = (.exc ⟨.typeError, "boom"⟩, fs0)
    ∧ wrapper [ExcClass.exceptionCls] "fallback" "log.txt" raiseTypeError
        (.num 0) fs0
      = (.ok (.str "fallback"), setFile fs0 "log.txt" (traceOf ⟨.typeError, "boom"⟩)) :=
  ⟨by decide, rfl, wrapper_handled rfl (by decide) (by decide)⟩

/-- C2 (amended): when the raised exception matches no configured class — no
class of the tuple equals or is a superclass of the exception's class — the
guard propagates the exception unchanged, with no fallback returned and no
diagnostic write. -/
theorem unmatched_exception_propagates
    (excs : List ExcClass) (rm lf : String) (func : Callable)
    (args : Val) (fs fs1 : FS) (e : Exc)
    (hraise : func args fs = (.exc e, fs1))
    (hmatch : excMatches excs e = false) :
    wrapper excs rm lf func args fs = (.exc e, fs1) :=
  wrapper_unmatched hraise hmatch

/-- Witness for the amended C2: a `ValueError` passes a guard configured for
`ZeroDivisionError` and `TypeError` unchanged. -/
theorem unmatched_exception_propagates_witness :
    wrapper [ExcClass.zeroDivisionError, ExcClass.typeError] "m" "log.txt"
        raiseValueError (.num 0) fs0
      = (.exc ⟨.valueError, "bad value"⟩, fs0) :=
  unmatched_exception_propagates [ExcClass.zeroDivisionError, ExcClass.typeError]
    "m" "log.txt" raiseValueError (.num 0) fs0 fs0 ⟨.valueError, "bad value"⟩
    rfl (by decide)

/-- C3: pass-through identity — when the wrapped callable completes without
raising, the guard returns exactly its result (and the state it produced). -/
theorem success_pass_through
    (excs : List ExcClass) (rm lf : String) (func : Callable)
    (args : Val) (fs fs1 : FS) (v : Val)
    (h : func args fs = (.ok v, fs1)) :
    wrapper excs rm lf func args fs = (.ok v, fs1) :=
  wrapper_ok h

/-- Witness for C3: the demonstration's `div_array` at `[10, 2, 2]` under one
guard. -/
theorem success_pass_through_witness :
    wrapper [ExcClass.exceptionCls] "m" "log.txt" div_array
        (.listV [.num 10, .num 2, .num 2]) fs0
      = (.ok (.num ((10 : ℚ) / 2 / 2)), fs0) :=
  success_pass_through [ExcClass.exceptionCls] "m" "log.txt" div_array
    (.listV [.num 10, .num 2, .num 2]) fs0 fs0 (.num ((10 : ℚ) / 2 / 2)) rfl

/-- C4: innermost-first, first-match-wins — on the zero-division input the
innermost `ZeroDivisionError` guard resolves the call with its own fallback
and its own log file, and arbitrary outer guards see a normal return and never
activate; in particular the demonstration's three-guard chain returns the
`ZeroDivisionError`-specific fallback, which differs from the generic one. -/
theorem inner_guard_first_match (fs : FS)
    (hopen : canOpen fs "zerodivisionerror.txt" = true) :
    (∀ (outerExcs midExcs : List ExcClass) (rmO lfO rmM lfM : String),
      wrapper outerExcs rmO lfO
          (wrapper midExcs rmM lfM
            (wrapper [.zeroDivisionError] zeroDivMessage "zerodivisionerror.txt"
              div_array))
          (.listV [.num 10, .num 0]) fs
        = (.ok (.str zeroDivMessage),
            setFile fs "zerodivisionerror.txt"
              (traceOf ⟨.zeroDivisionError, "division by zero"⟩)))
    ∧ div_array_guarded (.listV [.num 10, .num 0]) fs
      = (.ok (.str zeroDivMessage),
          setFile fs "zerodivisionerror.txt"
            (traceOf ⟨.zeroDivisionError, "division by zero"⟩))
    ∧ zeroDivMessage ≠ exc_handler.return_message := by
  have h1 : div_array (.listV [.num 10, .num 0]) fs
      = (.exc ⟨.zeroDivisionError, "division by zero"⟩, fs) := rfl
  have h2 : wrapper [.zeroDivisionError] zeroDivMessage "zerodivisionerror.txt"
      div_array (.listV [.num 10, .num 0]) fs
      = (.ok (.str zeroDivMessage),
          setFile fs "zerodivisionerror.txt"
            (traceOf ⟨.zeroDivisionError, "division by zero"⟩)) :=
    wrapper_handled h1 rfl hopen
  refine ⟨fun oE mE rmO lfO rmM lfM => wrapper_ok (wrapper_ok h2), ?_, by decide⟩
  rw [div_array_guarded_eq]
  exact wrapper_ok (wrapper_ok h2)

/-- Witness for C4: the demonstration's own outer guards at the empty file
system. -/
theorem inner_guard_first_match_witness :
    wrapper [ExcClass.exceptionCls] "Unexpected error, seek help."
        "default_error_log.txt"
        (wrapper [ExcClass.typeError] typeErrorMessage "typeerror.txt"
          (wrapper [ExcClass.zeroDivisionError] zeroDivMessage
            "zerodivisionerror.txt" div_array))
        (.listV [.num 10, .num 0]) fs0
      = (.ok (.str zeroDivMessage),
          setFile fs0 "zerodivisionerror.txt"
            (traceOf ⟨.zeroDivisionError, "division by zero"⟩))
    ∧ div_array_guarded (.listV [.num 10, .num 0]) fs0
      = (.ok (.str zeroDivMessage),
          setFile fs0 "zerodivisionerror.txt"
            (traceOf ⟨.zeroDivisionError, "division by zero"⟩)) := by
  have h := inner_guard_first_match fs0 (by decide)
  exact ⟨h.1 [ExcClass.exceptionCls] [ExcClass.typeError]
      "Unexpected error, seek help." "default_error_log.txt"
      typeErrorMessage "typeerror.txt", h.2.1⟩

/-- C5 counterexample: the demonstration chain applied to the non-iterable
number `1` returns the `TypeError` fallback — `reduce` raises `TypeError`,
which the middle guard catches — and that message differs from the
generic/outer fallback the claim expects. -/
theorem noniterable_generic_fallback_refuted :
    div_array_guarded (.num 1) fs0
      = (.ok (.str typeErrorMessage),
          setFile fs0 "typeerror.txt"
            (traceOf ⟨.typeError, "reduce() arg 2 must support iteration"⟩))
    ∧ typeErrorMessage ≠ exc_handler.return_message :=
  ⟨rfl, by decide⟩

/-- C5 (amended): the demonstration chain applied to the non-iterable number
`1` returns the `TypeError`-specific fallback message, because `reduce` raises
`TypeError` ("arg 2 must support iteration"), which the middle `TypeError`
guard catches; the generic outer guard never activates. -/
theorem noniterable_typeerror_fallback (fs : FS)
    (hopen : canOpen fs "typeerror.txt" = true) :
    div_array_guarded (.num 1) fs
      = (.ok (.str typeErrorMessage),
          setFile fs "typeerror.txt"
            (traceOf ⟨.typeError, "reduce() arg 2 must support iteration"⟩)) := by
  have h1 : div_array (.num 1) fs
      = (.exc ⟨.typeError, "reduce() arg 2 must support iteration"⟩, fs) := rfl
  have h2 : wrapper [.zeroDivisionError] zeroDivMessage "zerodivisionerror.txt"
      div_array (.num 1) fs
      = (.exc ⟨.typeError, "reduce() arg 2 must support iteration"⟩, fs) :=
    wrapper_unmatched h1 rfl
  have h3 : wrapper [.typeError] typeErrorMessage "typeerror.txt"
      (wrapper [.zeroDivisionError] zeroDivMessage "zerodivisionerror.txt"
        div_array) (.num 1) fs
      = (.ok (.str typeErrorMessage),
          setFile fs "typeerror.txt"
            (traceOf ⟨.typeError, "reduce() arg 2 must support iteration"⟩)) :=
    wrapper_handled h2 rfl hopen
  rw [div_array_guarded_eq]
  exact wrapper_ok h3

/-- Witness for the amended C5 at the empty file system. -/
theorem noniterable_typeerror_fallback_witness :
    div_array_guarded (.num 1) fs0
      = (.ok (.str typeErrorMessage),
          setFile fs0 "typeerror.txt"
            (traceOf ⟨.typeError, "reduce() arg 2 must support iteration"⟩)) :=
  noniterable_typeerror_fallback fs0 (by decide)

/-- C6: a `None` argument of the producing method resolves to the factory's
stored value and a non-`None` override wins; the produced guard is exactly the
wrapper over the resolved message and log file, so resolution is complete at
production time. -/
theorem defaults_resolved_at_production (h : ExceptionHandler)
    (excs : List ExcClass) (rm lf : Option String) :
    h.exception_handler_decorator excs rm lf
      = fun func =>
          wrapper excs (rm.getD h.return_message) (lf.getD h.log_file) func := by
  cases rm <;> cases lf <;> rfl

/-- C7: when the wrapped callable completes without raising, the guard layer
performs no diagnostic write — the resulting state is exactly the one the
callable produced; in particular the demonstration chain maps `[10, 2, 2]` to
`2.5` and leaves every file system unchanged. -/
theorem no_write_on_success :
    (∀ (excs : List ExcClass) (rm lf : String) (func : Callable) (args : Val)
        (fs fs1 : FS) (v : Val), func args fs = (.ok v, fs1) →
        wrapper excs rm lf func args fs = (.ok v, fs1))
    ∧ ∀ fs : FS, div_array_guarded (.listV [.num 10, .num 2, .num 2]) fs
        = (.ok (.num (5 / 2)), fs) := by
  refine ⟨fun excs rm lf func args fs fs1 v h => wrapper_ok h, fun fs => ?_⟩
  have hq : (10 : ℚ) / 2 / 2 = 5 / 2 := by norm_num
  have h1 : div_array (.listV [.num 10, .num 2, .num 2]) fs
      = (.ok (.num ((10 : ℚ) / 2 / 2)), fs) := rfl
  rw [hq] at h1
  rw [div_array_guarded_eq]
  exact wrapper_ok (wrapper_ok (wrapper_ok h1))

/-- Witness for C7: a single guard over `div_array` (even on a file system
whose log is unwritable) and the full demonstration chain. -/
theorem no_write_on_success_witness :
    wrapper [ExcClass.exceptionCls] "m" "log.txt" div_array
        (.listV [.num 10, .num 2, .num 2]) fsBad
      = (.ok (.num ((10 : ℚ) / 2 / 2)), fsBad)
    ∧ div_array_guarded (.listV [.num 10, .num 2, .num 2]) fs0
      = (.ok (.num (5 / 2)), fs0) :=
  ⟨no_write_on_success.1 [ExcClass.exceptionCls] "m" "log.txt" div_array
      (.listV [.num 10, .num 2, .num 2]) fsBad fsBad
      (.num ((10 : ℚ) / 2 / 2)) rfl,
    no_write_on_success.2 fs0⟩

/-- C8: when a guard matches a raised exception but the diagnostic target
cannot be opened, the write failure propagates as an error to the caller —
the fallback message is not returned. -/
theorem write_failure_propagates
    (excs : List ExcClass) (rm lf : String) (func : Callable)
    (args : Val) (fs fs1 : FS) (e : Exc)
    (hraise : func args fs = (.exc e, fs1))
    (hmatch : excMatches excs e = true)
    (hbad : canOpen fs1 lf = false) :
    wrapper excs rm lf func args fs = (.exc (openError lf), fs1)
    ∧ ∀ (v : Val) (fs2 : FS), wrapper excs rm lf func args fs ≠ (.ok v, fs2) := by
  have h1 : wrapper excs rm lf func args fs = (.exc (openError lf), fs1) :=
    wrapper_writefail hraise hmatch hbad
  refine ⟨h1, fun v fs2 hc => ?_⟩
  rw [h1] at hc
  exact PyResult.noConfusion (congrArg Prod.fst hc)

/-- Witness for C8: the `ZeroDivisionError` guard on a file system whose log
path cannot be opened. -/
theorem write_failure_propagates_witness :
    wrapper [ExcClass.zeroDivisionError] zeroDivMessage "zerodivisionerror.txt"
        div_array (.listV [.num 10, .num 0]) fsBad
      = (.exc (openError "zerodivisionerror.txt"), fsBad) :=
  (write_failure_propagates [ExcClass.zeroDivisionError] zeroDivMessage
    "zerodivisionerror.txt" div_array (.listV [.num 10, .num 0]) fsBad fsBad
    ⟨.zeroDivisionError, "division by zero"⟩ rfl rfl (by decide)).1

/-- C9: with a pure wrapped callable (identical inputs, no external state
change), a second invocation of the guard yields the same result as the
first, and a handled invocation overwrites the diagnostic file, so after the
second invocation the file holds exactly the one trace. -/
theorem repeat_invocation_idempotent
    (excs : List ExcClass) (rm lf : String) (func : Callable)
    (args : Val) (fs : FS) (r : PyResult Val)
    (hpure : ∀ s : FS, func args s = (r, s)) :
    (wrapper excs rm lf func args
        ((wrapper excs rm lf func args fs).2)).1
      = (wrapper excs rm lf func args fs).1
    ∧ ∀ e : Exc, r = .exc e → excMatches excs e = true →
        canOpen fs lf = true →
        readFile (wrapper excs rm lf func args
            ((wrapper excs rm lf func args fs).2)).2 lf
          = some (traceOf e) := by
  cases r with
  | ok v =>
    have h1 : wrapper excs rm lf func args fs = (.ok v, fs) :=
      wrapper_ok (hpure fs)
    exact ⟨by simp [h1], fun e he => PyResult.noConfusion he⟩
  | exc e0 =>
    cases hm : excMatches excs e0 with
    | false =>
      have h1 : wrapper excs rm lf func args fs = (.exc e0, fs) :=
        wrapper_unmatched (hpure fs) hm
      refine ⟨by simp [h1], fun e he hmt hot => ?_⟩
      injection he with hee
      subst hee
      rw [hm] at hmt
      exact Bool.noConfusion hmt
    | true =>
      cases ho : canOpen fs lf with
      | false =>
        have h1 : wrapper excs rm lf func args fs = (.exc (openError lf), fs) :=
          wrapper_writefail (hpure fs) hm ho
        refine ⟨by simp [h1], fun e he hmt hot => ?_⟩
        exact Bool.noConfusion hot
      | true =>
        have h1 : wrapper excs rm lf func args fs
            = (.ok (.str rm), setFile fs lf (traceOf e0)) :=
          wrapper_handled (hpure fs) hm ho
        have ho2 : canOpen (setFile fs lf (traceOf e0)) lf = true := by
          rw [canOpen_setFile]
          exact ho
        have h2 : wrapper excs rm lf func args (setFile fs lf (traceOf e0))
            = (.ok (.str rm),
                setFile (setFile fs lf (traceOf e0)) lf (traceOf e0)) :=
          wrapper_handled (hpure _) hm ho2
        refine ⟨by simp [h1, h2], fun e he hmt hot => ?_⟩
        injection he with hee
        subst hee
        simp [h1, h2, readFile_setFile]

/-- Witness for C9: the `ZeroDivisionError` guard over the pure `div_array`
at the zero-division input, invoked twice from the empty file system. -/
theorem repeat_invocation_idempotent_witness :
    (wrapper [ExcClass.zeroDivisionError] zeroDivMessage "zerodivisionerror.txt"
        div_array (.listV [.num 10, .num 0])
        ((wrapper [ExcClass.zeroDivisionError] zeroDivMessage
            "zerodivisionerror.txt" div_array
            (.listV [.num 10, .num 0]) fs0).2)).1
      = (wrapper [ExcClass.zeroDivisionError] zeroDivMessage
          "zerodivisionerror.txt" div_array (.listV [.num 10, .num 0]) fs0).1
    ∧ readFile (wrapper [ExcClass.zeroDivisionError] zeroDivMessage
          "zerodivisionerror.txt" div_array (.listV [.num 10, .num 0])
          ((wrapper [ExcClass.zeroDivisionError] zeroDivMessage
              "zerodivisionerror.txt" div_array
              (.listV [.num 10, .num 0]) fs0).2)).2 "zerodivisionerror.txt"
      = some (traceOf ⟨.zeroDivisionError, "division by zero"⟩) := by
  have h := repeat_invocation_idempotent [ExcClass.zeroDivisionError]
    zeroDivMessage "zerodivisionerror.txt" div_array (.listV [.num 10, .num 0])
    fs0 (.exc ⟨.zeroDivisionError, "division by zero"⟩) (fun s => rfl)
  exact ⟨h.1, h.2 ⟨.zeroDivisionError, "division by zero"⟩ rfl rfl rfl⟩

/-- C10: an empty `exceptions` tuple is accepted — the producing method
validates nothing — and the resulting guard catches nothing: it behaves
exactly as the wrapped callable on every input, so every raised exception
propagates unchanged. -/
theorem empty_categories_no_catch (h : ExceptionHandler) (rm lf : Option String)
    (func : Callable) (args : Val) (fs : FS) :
    h.exception_handler_decorator [] rm lf func args fs = func args fs := by
  have key : ∀ r : PyResult Val × FS, func args fs = r →
      h.exception_handler_decorator [] rm lf func args fs = r := by
    intro r hr
    obtain ⟨res, fs1⟩ := r
    cases res with
    | ok v => exact wrapper_ok hr
    | exc e => exact wrapper_unmatched hr rfl
  exact key _ rfl

end ExceptionHandlerDecorator
